import Mathlib

/-!
Verification development for the profiler inference-and-synthesis engine
(`UserConfigurableProfiler`).  The repository ships only the test suite for
this component (`tests/profile/test_user_configurable_profiler.py`); the
implementation module itself is not present, so the definitions below are a
shallow embedding modelled from the specification, with concrete behaviour
pinned by the repository's own test assertions wherever the two disagree.
-/

namespace UserConfigurableProfiler

/-- Modelled from the spec: the ordered cardinality-bucket enumeration,
from least to most distinct (spec section 3). -/
inductive Cardinality where
  | NONE
  | ONE
  | TWO
  | VERY_FEW
  | FEW
  | MANY
  | VERY_MANY
  | UNIQUE
deriving DecidableEq, Repr

/-- Rank of a bucket in the spec's order (NONE least, UNIQUE greatest). -/
def Cardinality.rank : Cardinality → Nat
  | .NONE => 0
  | .ONE => 1
  | .TWO => 2
  | .VERY_FEW => 3
  | .FEW => 4
  | .MANY => 5
  | .VERY_MANY => 6
  | .UNIQUE => 7

/-- Bucket order used by the `value_set_threshold` comparison. -/
def cardAtOrBelow (a b : Cardinality) : Bool :=
  a.rank ≤ b.rank

/-- Uppercase name of a bucket, as it appears in `column_info`. -/
def Cardinality.label : Cardinality → String
  | .NONE => "NONE"
  | .ONE => "ONE"
  | .TWO => "TWO"
  | .VERY_FEW => "VERY_FEW"
  | .FEW => "FEW"
  | .MANY => "MANY"
  | .VERY_MANY => "VERY_MANY"
  | .UNIQUE => "UNIQUE"

/-- ASCII uppercase of a character. -/
def upperChar (c : Char) : Char :=
  if c.isLower then Char.ofNat (c.toNat - 32) else c

/-- ASCII uppercase of a string (the case-insensitive comparisons of the
profiler only involve ASCII category and bucket names). -/
def strToUpper (s : String) : String :=
  ⟨s.data.map upperChar⟩

/-- Parse a configured `value_set_threshold` string (case insensitive). -/
def parseCardinality (s : String) : Option Cardinality :=
  let u := strToUpper s
  if u = "NONE" then some .NONE
  else if u = "ONE" then some .ONE
  else if u = "TWO" then some .TWO
  else if u = "VERY_FEW" then some .VERY_FEW
  else if u = "FEW" then some .FEW
  else if u = "MANY" then some .MANY
  else if u = "VERY_MANY" then some .VERY_MANY
  else if u = "UNIQUE" then some .UNIQUE
  else none

/-- Per-column aggregate statistics reported by the dataset collaborator
(spec section 6): null count, distinct non-null value count, and the
inferred base type of the column storage. -/
structure ColStats where
  nullCount : Nat
  distinctCount : Nat
  colType : String
deriving DecidableEq, Repr

/-- Modelled from the spec: the dataset collaborator (spec section 6).  It
reports an ordered column list, the row count, and per-column aggregate
statistics. -/
structure Dataset where
  columns : List String
  rowCount : Nat
  stats : List (String × ColStats)
deriving DecidableEq, Repr

def Dataset.statsOf (ds : Dataset) (c : String) : ColStats :=
  match ds.stats.lookup c with
  | some st => st
  | none => ⟨0, 0, "OTHER"⟩

def Dataset.nullCountOf (ds : Dataset) (c : String) : Nat :=
  (ds.statsOf c).nullCount

def Dataset.distinctCountOf (ds : Dataset) (c : String) : Nat :=
  (ds.statsOf c).distinctCount

def Dataset.colTypeOf (ds : Dataset) (c : String) : String :=
  (ds.statsOf c).colType

/-- Count of non-null rows of a column. -/
def Dataset.nonNullCountOf (ds : Dataset) (c : String) : Nat :=
  ds.rowCount - ds.nullCountOf c

/-- Modelled from the spec: the cardinality classification (spec section 3).
The spec fixes the boundary cases (0 distinct values is NONE, 1 is ONE, 2 is
TWO, and distinct count equal to the non-null row count is UNIQUE) and leaves
the remaining cutoffs to the implementer; the concrete cutoffs chosen here
(VERY_FEW below 20 distinct, FEW below 60, VERY_MANY when more than a tenth
of the non-null rows are distinct, MANY otherwise) reproduce the spec's
concrete 8-column/1000-row scenario and the repository test
`test_init_with_semantic_types`. -/
def getBasicColumnCardinality (numUnique nonNull : Nat) : Cardinality :=
  if nonNull ≠ 0 ∧ numUnique = nonNull then .UNIQUE
  else if numUnique = 0 then .NONE
  else if numUnique = 1 then .ONE
  else if numUnique = 2 then .TWO
  else if numUnique < 20 then .VERY_FEW
  else if numUnique < 60 then .FEW
  else if 10 * numUnique > nonNull then .VERY_MANY
  else .MANY

/-- A resolved per-column profile record: `{cardinality, type,
semantic_types}` (spec section 3). -/
structure ColumnProfile where
  cardinality : Cardinality
  colType : String
  semanticTypes : List String
deriving DecidableEq, Repr

/-- A value of the `semantic_types` config section: either a bare string
(a formatting error) or a list of column names. -/
inductive SemanticValue where
  | single (s : String)
  | multiple (l : List String)
deriving DecidableEq, Repr

/-- A raw configuration value, as supplied by the user before validation. -/
inductive ConfigValue where
  | str (s : String)
  | bool (b : Bool)
  | list (l : List String)
  | dict (d : List (String × SemanticValue))
  | int (n : Int)
deriving DecidableEq, Repr

/-- Modelled from the spec: the normalized configuration with defaults
filled in for absent keys (spec section 4.1). -/
structure NormalizedConfig where
  primaryOrCompoundKey : List String := []
  ignoredColumns : List String := []
  valueSetThreshold : Option Cardinality := none
  tableExpectationsOnly : Bool := false
  excludedExpectations : List String := []
  notNullOnly : Bool := false
  semanticTypes : List (String × List String) := []
deriving DecidableEq, Repr

/-- Modelled from the spec: the error taxonomy of spec section 7.
`configurationError` corresponds to the AssertionError raised by the
profiler's config validation in the repository tests; `referenceError` and
`semanticCategoryError` correspond to the ValueError raised for missing
columns and unrecognized semantic categories respectively. -/
inductive ProfilerError where
  | configurationError (msg : String)
  | referenceError (msg : String)
  | semanticCategoryError (category : String) (valid : List String)
deriving DecidableEq, Repr

/-- The fixed set of recognized configuration option names (spec section 3). -/
def recognizedConfigKeys : List String :=
  ["primary_or_compound_key", "ignored_columns", "value_set_threshold",
   "table_expectations_only", "excluded_expectations", "not_null_only",
   "semantic_types"]

/-- The fixed semantic-type enumeration names (spec section 3). -/
def validSemanticTypeNames : List String :=
  ["DATETIME", "NUMERIC", "STRING", "VALUE_SET", "BOOLEAN", "OTHER"]

/-- Message for an unrecognized configuration key, pinned by the repository
test `test__validate_config`. -/
def unrecognizedKeyMessage (k : String) : String :=
  "Parameter " ++ k ++ " from config is not recognized."

/-- Message for a configuration value of the wrong type. -/
def wrongTypeMessage (k expected : String) : String :=
  "Config parameter " ++ k ++ " must be formatted as a " ++ expected ++ "."

/-- Message for a semantic-types entry that is not a list of column names. -/
def semanticFormatMessage : String :=
  "Entries in semantic type dict must be lists of column names."

/-- Convert the values of a raw `semantic_types` dict, failing on a bare
string entry (spec section 4.3, formatting check). -/
def convertSemanticDict :
    List (String × SemanticValue) →
    Except ProfilerError (List (String × List String))
  | [] => .ok []
  | (_, .single _) :: _ =>
      .error (.configurationError semanticFormatMessage)
  | (cat, .multiple cols) :: rest =>
      match convertSemanticDict rest with
      | .error e => .error e
      | .ok tail => .ok ((cat, cols) :: tail)

/-- Modelled from the spec: validation of a single configuration entry
(spec section 4.1).  An unrecognized key fails with an error naming the
offending key; a recognized key with a value of the wrong declared type
fails with an error naming the key and the expected type.  On success it
returns the field update the entry performs. -/
def checkEntry (k : String) (v : ConfigValue) :
    Except ProfilerError (NormalizedConfig → NormalizedConfig) :=
  if k = "primary_or_compound_key" then
      match v with
      | .list l => .ok (fun cfg => { cfg with primaryOrCompoundKey := l })
      | _ => .error (.configurationError (wrongTypeMessage k "list"))
    else if k = "ignored_columns" then
      match v with
      | .list l => .ok (fun cfg => { cfg with ignoredColumns := l })
      | _ => .error (.configurationError (wrongTypeMessage k "list"))
    else if k = "value_set_threshold" then
      match v with
      | .str s =>
        match parseCardinality s with
        | some t => .ok (fun cfg => { cfg with valueSetThreshold := some t })
        | none => .error (.configurationError (wrongTypeMessage k "cardinality bucket name"))
      | _ => .error (.configurationError (wrongTypeMessage k "str"))
    else if k = "table_expectations_only" then
      match v with
      | .bool b => .ok (fun cfg => { cfg with tableExpectationsOnly := b })
      | _ => .error (.configurationError (wrongTypeMessage k "bool"))
    else if k = "excluded_expectations" then
      match v with
      | .list l => .ok (fun cfg => { cfg with excludedExpectations := l })
      | _ => .error (.configurationError (wrongTypeMessage k "list"))
    else if k = "not_null_only" then
      match v with
      | .bool b => .ok (fun cfg => { cfg with notNullOnly := b })
      | _ => .error (.configurationError (wrongTypeMessage k "bool"))
    else if k = "semantic_types" then
      match v with
      | .dict d =>
        match convertSemanticDict d with
        | .ok st => .ok (fun cfg => { cfg with semanticTypes := st })
        | .error e => .error e
      | _ => .error (.configurationError (wrongTypeMessage k "dict"))
    else
      .error (.configurationError (unrecognizedKeyMessage k))

/-- Modelled from the spec: configuration validation folds every raw entry
over the defaulted configuration, failing fast on the first invalid entry
(spec section 4.1). -/
def validateConfig (cfg : NormalizedConfig) :
    List (String × ConfigValue) → Except ProfilerError NormalizedConfig
  | [] => .ok cfg
  | (k, v) :: rest =>
    match checkEntry k v with
    | .error err => .error err
    | .ok f => validateConfig (f cfg) rest

/-- Modelled from the spec: every semantic-category key must belong to the
fixed enumeration, case-insensitively; a failure names the invalid category
and lists the valid ones (spec section 4.3 and the repository test
`test__validate_semantic_types_dict`). -/
def checkSemanticCategories :
    List (String × List String) → Except ProfilerError Unit
  | [] => .ok ()
  | (cat, _) :: rest =>
    if validSemanticTypeNames.contains (strToUpper cat) then
      checkSemanticCategories rest
    else
      .error (.semanticCategoryError cat validSemanticTypeNames)

/-- Message for a primary/compound key column absent from the dataset,
pinned (including the missing space) by the repository test
`test_primary_or_compound_key_not_found_in_columns`. -/
def pkNotFoundMessage (c : String) : String :=
  "Column " ++ c ++ " not found. Please ensure that this column is in the dataset if" ++
  "you would like to use it as a primary_or_compound_key."

/-- Modelled from the spec: every column referenced in
`primary_or_compound_key` must exist in the dataset's column set; absence is
a hard validation failure naming the missing column (spec section 3,
invariants). -/
def checkPrimaryKey (ds : Dataset) : List String → Except ProfilerError Unit
  | [] => .ok ()
  | c :: rest =>
    if ds.columns.contains c then checkPrimaryKey ds rest
    else .error (.referenceError (pkNotFoundMessage c))

/-- Message for a semantic-types entry naming a truly nonexistent column. -/
def semanticColumnNotFoundMessage (c : String) : String :=
  "Column " ++ c ++ " referenced in the semantic_types dict was not found in the dataset."

/-- Modelled from the spec: each column named in a semantic group must exist
among the dataset's columns; an ignored column is silently dropped from the
group, a truly nonexistent one is a failure (spec section 4.3). -/
def checkSemanticColumnList (ds : Dataset) (cfg : NormalizedConfig) :
    List String → Except ProfilerError Unit
  | [] => .ok ()
  | c :: rest =>
    if cfg.ignoredColumns.contains c then checkSemanticColumnList ds cfg rest
    else if ds.columns.contains c then checkSemanticColumnList ds cfg rest
    else .error (.referenceError (semanticColumnNotFoundMessage c))

/-- Validate every column reference of the `semantic_types` section. -/
def checkSemanticColumns (ds : Dataset) (cfg : NormalizedConfig) :
    List (String × List String) → Except ProfilerError Unit
  | [] => .ok ()
  | (_, cols) :: rest =>
    match checkSemanticColumnList ds cfg cols with
    | .error e => .error e
    | .ok _ => checkSemanticColumns ds cfg rest

/-- The semantic-type tags attached to a column: the user-supplied category
strings, exactly as written, of every declared group containing the column,
in declaration order (spec section 4.3 and the repository test
`test_init_with_semantic_types`). -/
def semanticTagsFor (st : List (String × List String)) (c : String) : List String :=
  (st.filter (fun p => p.2.contains c)).map Prod.fst

/-- The profile record of a single column (spec sections 4.2 and 4.3). -/
def columnProfileFor (ds : Dataset) (cfg : NormalizedConfig) (c : String) : ColumnProfile :=
  { cardinality := getBasicColumnCardinality (ds.distinctCountOf c) (ds.nonNullCountOf c)
    colType := ds.colTypeOf c
    semanticTypes := semanticTagsFor cfg.semanticTypes c }

/-- Modelled from the spec: `column_info`, the per-column profile mapping
over every non-ignored column, in dataset column order (spec sections 4.2
and 4.3). -/
def buildColumnInfo (ds : Dataset) (cfg : NormalizedConfig) :
    List (String × ColumnProfile) :=
  (ds.columns.filter (fun c => !(cfg.ignoredColumns.contains c))).map
    (fun c => (c, columnProfileFor ds cfg c))

/-- An Expectation Specification: the expectation name together with the
`column` kwarg carried by column-scoped expectations (spec section 3).
Remaining kwargs (value sets, observed bounds, mostly fractions) are not
modelled: no verified property inspects them. -/
structure ExpSpec where
  expectationType : String
  column : Option String
deriving DecidableEq, Repr

/-- Modelled from the spec: a profiler instance owns its normalized
configuration, its resolved `column_info` mapping, and the expectation
collection of the dataset's current suite (spec sections 5 and 6). -/
structure Profiler where
  dataset : Dataset
  primaryOrCompoundKey : List String
  ignoredColumns : List String
  valueSetThreshold : Option Cardinality
  tableExpectationsOnly : Bool
  excludedExpectations : List String
  notNullOnly : Bool
  semanticTypesDecl : List (String × List String)
  columnInfo : List (String × ColumnProfile)
  suite : List ExpSpec
deriving DecidableEq, Repr

/-- Assemble a profiler from a dataset and a validated configuration. -/
def assemble (ds : Dataset) (cfg : NormalizedConfig) : Profiler :=
  { dataset := ds
    primaryOrCompoundKey := cfg.primaryOrCompoundKey
    ignoredColumns := cfg.ignoredColumns
    valueSetThreshold := cfg.valueSetThreshold
    tableExpectationsOnly := cfg.tableExpectationsOnly
    excludedExpectations := cfg.excludedExpectations
    notNullOnly := cfg.notNullOnly
    semanticTypesDecl := cfg.semanticTypes
    columnInfo := buildColumnInfo ds cfg
    suite := [] }

/-- Modelled from the spec: constructing a profiler validates the raw
configuration, the semantic categories, the primary/compound key and the
semantic column references eagerly, then resolves `column_info`; every
validation failure is fatal to the construction attempt and happens before
any expectation synthesis (spec sections 4.1-4.3 and 7). -/
def construct (ds : Dataset) (raw : List (String × ConfigValue)) :
    Except ProfilerError Profiler :=
  match validateConfig {} raw with
  | .error e => .error e
  | .ok cfg =>
    match checkSemanticCategories cfg.semanticTypes with
    | .error e => .error e
    | .ok _ =>
      match checkPrimaryKey ds cfg.primaryOrCompoundKey with
      | .error e => .error e
      | .ok _ =>
        match checkSemanticColumns ds cfg cfg.semanticTypes with
        | .error e => .error e
        | .ok _ => .ok (assemble ds cfg)

/-- The effective value-set threshold: the configured bucket, or the default
policy when unset.  Modelled from the spec: the default policy is left
unspecified there, so FEW is chosen as the concrete default. -/
def effectiveValueSetThreshold (p : Profiler) : Cardinality :=
  p.valueSetThreshold.getD .FEW

/-- Modelled from the spec as amended by the repository test
`test_config_with_not_null_only`, which pins the following behaviour: every
profiled column receives exactly one null-handling expectation.  A column
with no nulls receives `expect_column_values_to_not_be_null`; a column with
nulls receives `expect_column_values_to_be_null` (with a mostly fraction)
when at least half of the rows are null and `not_null_only` is false, and
`expect_column_values_to_not_be_null` (with a mostly fraction) otherwise. -/
def nullExpectationTypes (p : Profiler) (c : String) : List String :=
  if p.dataset.nullCountOf c = 0 then
    ["expect_column_values_to_not_be_null"]
  else if ¬ p.notNullOnly ∧ p.dataset.rowCount ≤ 2 * p.dataset.nullCountOf c then
    ["expect_column_values_to_be_null"]
  else
    ["expect_column_values_to_not_be_null"]

/-- The numeric aggregate "between" expectations bounded by the observed
aggregate values (spec section 4.4). -/
def numericExpectationTypes : List String :=
  ["expect_column_min_to_be_between", "expect_column_max_to_be_between",
   "expect_column_mean_to_be_between", "expect_column_median_to_be_between",
   "expect_column_quantile_values_to_be_between"]

/-- Whether an inferred base type counts as numeric (spec section 4.4). -/
def isNumericType (t : String) : Bool :=
  t = "INT" || t = "NUMERIC" || t = "FLOAT"

/-- Expectation types contributed by one user-declared semantic tag of a
column, matched case-insensitively against the fixed semantic
enumeration. -/
def semanticExpectationTypesForTag (tag : String) : List String :=
  if (strToUpper tag) = "VALUE_SET" then ["expect_column_values_to_be_in_set"]
  else if (strToUpper tag) = "NUMERIC" then numericExpectationTypes
  else if (strToUpper tag) = "DATETIME" then ["expect_column_values_to_be_between"]
  else []

/-- Modelled from the spec: the column-level expectations synthesized for a
single profiled column (spec section 4.4), before the final exclusion
filter: a type expectation always; exactly one null-handling expectation;
a uniqueness expectation when the column is the singleton primary key.
When a `semantic_types` dict was declared, the remaining expectations are
driven only by the column's semantic tags (the repository test
`test_build_suite_with_semantic_types_dict` pins that the value-set
threshold is ignored in that mode); otherwise the value-set expectation is
driven by the cardinality threshold, the numeric expectations by the
inferred type, and the proportion-of-unique-values expectation by
near-unique cardinality. -/
def columnExpectationTypes (p : Profiler) (c : String) (prof : ColumnProfile) :
    List String :=
  ["expect_column_values_to_be_in_type_list"]
  ++ nullExpectationTypes p c
  ++ (if p.primaryOrCompoundKey = [c] then
        ["expect_column_values_to_be_unique"]
      else [])
  ++ (if p.semanticTypesDecl.isEmpty then
        (if cardAtOrBelow prof.cardinality (effectiveValueSetThreshold p) then
           ["expect_column_values_to_be_in_set"]
         else [])
        ++ (if isNumericType prof.colType then numericExpectationTypes else [])
        ++ (if prof.cardinality = .VERY_MANY then
              ["expect_column_proportion_of_unique_values_to_be_between"]
            else [])
      else
        prof.semanticTypes.flatMap semanticExpectationTypesForTag)

/-- The column-level Expectation Specifications of one column: every
synthesized expectation type, scoped to the column by its `column` kwarg. -/
def columnExpectations (p : Profiler) (c : String) (prof : ColumnProfile) :
    List ExpSpec :=
  (columnExpectationTypes p c prof).map (fun t => ⟨t, some c⟩)

/-- Modelled from the spec: the table-level expectations, emitted first:
the ordered column list and the row-count bound, plus the compound
uniqueness expectation when the primary/compound key has several columns
(spec section 4.4). -/
def tableExpectations (p : Profiler) : List ExpSpec :=
  [⟨"expect_table_columns_to_match_ordered_list", none⟩,
   ⟨"expect_table_row_count_to_be_between", none⟩]
  ++ (if 2 ≤ p.primaryOrCompoundKey.length then
        [⟨"expect_compound_columns_to_be_unique", none⟩]
      else [])

/-- The full ordered synthesis before the exclusion filter: table-level
expectations first, then (unless `table_expectations_only`) the per-column
expectations in column order (spec section 4.4). -/
def rawSuite (p : Profiler) : List ExpSpec :=
  tableExpectations p
  ++ (if p.tableExpectationsOnly then []
      else p.columnInfo.flatMap (fun pr => columnExpectations p pr.1 pr.2))

/-- Modelled from the spec: the synthesized suite, with the
`excluded_expectations` filter applied last and uniformly to table- and
column-level expectations (spec section 4.4). -/
def synthSuite (p : Profiler) : List ExpSpec :=
  (rawSuite p).filter
    (fun e => !(p.excludedExpectations.contains e.expectationType))

/-- Modelled from the spec: `build_suite` replaces the suite's expectation
collection wholesale with the fresh synthesis and returns it (spec
section 4.5). -/
def buildSuite (p : Profiler) : Profiler × List ExpSpec :=
  let s := synthSuite p
  ({ p with suite := s }, s)

/-- Whether a suite contains an expectation of the given type scoped to the
given column. -/
def emitsForColumn (s : List ExpSpec) (t c : String) : Bool :=
  s.any (fun e => e.expectationType == t && e.column == some c)

/-- Whether no expectation of a suite carries the given column kwarg. -/
def suiteAvoidsColumn (s : List ExpSpec) (c : String) : Bool :=
  s.all (fun e => e.column != some c)

/-- Whether no expectation of a suite has a type from the given list. -/
def suiteExcludesAll (s : List ExpSpec) (excl : List String) : Bool :=
  s.all (fun e => !(excl.contains e.expectationType))

/-- The 8-column, 1000-row synthetic dataset of the spec's concrete
cardinality scenario (test fixture `cardinality_dataset`): the columns hold
0, 1, 2, 10, 50, 100, 500 and 1000 distinct non-null values respectively,
and only `col_none` is entirely null. -/
def cardinalityDataset : Dataset :=
  { columns := ["col_none", "col_one", "col_two", "col_very_few", "col_few",
                "col_many", "col_very_many", "col_unique"]
    rowCount := 1000
    stats :=
      [("col_none", ⟨1000, 0, "NUMERIC"⟩),
       ("col_one", ⟨0, 1, "INT"⟩),
       ("col_two", ⟨0, 2, "INT"⟩),
       ("col_very_few", ⟨0, 10, "INT"⟩),
       ("col_few", ⟨0, 50, "INT"⟩),
       ("col_many", ⟨0, 100, "INT"⟩),
       ("col_very_many", ⟨0, 500, "INT"⟩),
       ("col_unique", ⟨0, 1000, "INT"⟩)] }

/-- The raw configuration of the test fixture
`full_config_cardinality_dataset_with_semantic_types`. -/
def fullSemanticRawConfig : List (String × ConfigValue) :=
  [("semantic_types", .dict
     [("numeric", .multiple ["col_few", "col_many", "col_very_many"]),
      ("value_set", .multiple ["col_one", "col_two", "col_very_few"])]),
   ("primary_or_compound_key", .list ["col_unique"]),
   ("ignored_columns", .list ["col_one"]),
   ("value_set_threshold", .str "unique"),
   ("table_expectations_only", .bool false),
   ("excluded_expectations", .list ["expect_column_values_to_not_be_null"])]

/-- The two-column dataset of the repository test
`test_config_with_not_null_only`: over 1000 rows, `mostly_null` has 666
nulls and 334 distinct non-null values, `mostly_not_null` has 334 nulls and
666 distinct non-null values. -/
def twoColumnDataset : Dataset :=
  { columns := ["mostly_null", "mostly_not_null"]
    rowCount := 1000
    stats :=
      [("mostly_null", ⟨666, 334, "NUMERIC"⟩),
       ("mostly_not_null", ⟨334, 666, "NUMERIC"⟩)] }

/-- A placeholder profiler over the empty dataset, used only to read a
successfully constructed profiler out of an `Except` value. -/
def defaultProfiler : Profiler :=
  assemble ⟨[], 0, []⟩ {}

/-- The profiler a construction attempt produces, when it succeeds. -/
def profilerOf (ds : Dataset) (raw : List (String × ConfigValue)) : Profiler :=
  (construct ds raw).toOption.getD defaultProfiler

/-- The constructed profiler of the full semantic-types scenario. -/
def semanticProfiler : Profiler :=
  profilerOf cardinalityDataset fullSemanticRawConfig

/-- The constructed profiler of the two-column null scenario, no config. -/
def twoColumnProfiler : Profiler :=
  profilerOf twoColumnDataset []

/-- The cardinality labels recorded in `column_info`, when construction
succeeds (empty on a failed construction). -/
def cardinalitiesOf (r : Except ProfilerError Profiler) :
    List (String × Cardinality) :=
  match r with
  | .ok p => p.columnInfo.map (fun pr => (pr.1, pr.2.cardinality))
  | .error _ => []

/-- The `primary_or_compound_key` field of a construction result (empty on
a failed construction). -/
def pkOfResult (r : Except ProfilerError Profiler) : List String :=
  match r with
  | .ok p => p.primaryOrCompoundKey
  | .error _ => []

/-- The profile record a profiler holds for a column (a default record for
columns absent from `column_info`). -/
def profileOf (p : Profiler) (c : String) : ColumnProfile :=
  match p.columnInfo.lookup c with
  | some pr => pr
  | none => ⟨.NONE, "OTHER", []⟩

/-- Raw configuration of the repository test fixture
`full_config_cardinality_dataset_no_semantic_types` restricted to its
primary-key and ignored-columns entries, with the ignored column also part
of the compound key (the `ignored_column_config` of the test
`test_primary_or_compound_key_not_found_in_columns`). -/
def ignoredKeyRawConfig : List (String × ConfigValue) :=
  [("primary_or_compound_key", .list ["col_unique", "col_one"]),
   ("ignored_columns", .list ["col_none", "col_one"])]

/-- Raw configuration whose primary/compound key names a column absent from
the dataset (the `bad_key_config` of the repository test). -/
def badKeyRawConfig : List (String × ConfigValue) :=
  [("primary_or_compound_key", .list ["col_unique", "col_that_does_not_exist"])]

/-- Raw configuration of the repository test
`test_build_suite_when_suite_already_exists`. -/
def tableOnlyRawConfig : List (String × ConfigValue) :=
  [("table_expectations_only", .bool true),
   ("excluded_expectations", .list ["expect_table_row_count_to_be_between"])]

/-- The constructed profiler of the table-expectations-only scenario. -/
def tableOnlyProfiler : Profiler :=
  profilerOf cardinalityDataset tableOnlyRawConfig

/-- Whether a single raw configuration entry passes entry-level validation. -/
def entryOk (e : String × ConfigValue) : Bool :=
  match checkEntry e.1 e.2 with
  | .ok _ => true
  | .error _ => false

/-- The raw configuration `{"bad_keyword": 100}` of the repository test
`test__validate_config`. -/
def badKeywordRawConfig : List (String × ConfigValue) :=
  [("bad_keyword", .int 100)]

theorem anyFilter {α : Type} (l : List α) (p q : α → Bool) :
    (l.filter p).any q = l.any (fun a => p a && q a) := by
  induction l with
  | nil => rfl
  | cons x xs ih => by_cases h : p x <;> simp [List.filter_cons, h, ih]

theorem anyFlatMap {α β : Type} (l : List α) (f : α → List β) (q : β → Bool) :
    (l.flatMap f).any q = l.any (fun a => (f a).any q) := by
  induction l with
  | nil => rfl
  | cons x xs ih => simp [List.flatMap_cons, List.any_append, ih]

theorem anyCongr {α : Type} {l : List α} {p q : α → Bool}
    (h : ∀ a ∈ l, p a = q a) : l.any p = l.any q := by
  induction l with
  | nil => rfl
  | cons x xs ih =>
    simp only [List.any_cons, h x (List.mem_cons_self x xs)]
    rw [ih (fun a ha => h a (List.mem_cons_of_mem x ha))]

theorem anyMap {α β : Type} (l : List α) (f : α → β) (q : β → Bool) :
    (l.map f).any q = l.any (fun a => q (f a)) := by
  induction l with
  | nil => rfl
  | cons x xs ih => simp [List.any_cons, ih]

/-- An `any` over an association list with pairwise-distinct keys reduces,
at a predicate that is false away from the key `c`, to the predicate's
value at the unique entry keyed by `c`. -/
theorem anyKeyUnique (info : List (String × ColumnProfile)) (c : String)
    (pr : ColumnProfile) (f : String → ColumnProfile → Bool)
    (hNodup : (info.map Prod.fst).Nodup)
    (hMem : (c, pr) ∈ info)
    (hf : ∀ c' pr', c' ≠ c → f c' pr' = false) :
    info.any (fun x => f x.1 x.2) = f c pr := by
  induction info with
  | nil => cases hMem
  | cons x xs ih =>
    rw [List.map_cons] at hNodup
    have hnd := List.nodup_cons.mp hNodup
    rcases List.mem_cons.mp hMem with hx | hx
    · subst hx
      have hrest : xs.any (fun y => f y.1 y.2) = false := by
        apply List.any_eq_false.mpr
        intro y hy
        have hne : y.1 ≠ c := by
          intro hceq
          exact hnd.1 (List.mem_map.mpr ⟨y, hy, hceq⟩)
        simp [hf y.1 y.2 hne]
      simp [List.any_cons, hrest]
    · have hkey : x.1 ≠ c := by
        intro hceq
        apply hnd.1
        rw [hceq]
        exact List.mem_map.mpr ⟨(c, pr), hx, rfl⟩
      have hhead : f x.1 x.2 = false := hf _ _ hkey
      simp only [List.any_cons, hhead, Bool.false_or]
      exact ih hnd.2 hx

theorem columnExpectations_column (p : Profiler) (c : String)
    (pr : ColumnProfile) (e : ExpSpec) (he : e ∈ columnExpectations p c pr) :
    e.column = some c := by
  rcases List.mem_map.mp he with ⟨t, _, rfl⟩
  rfl

theorem tableExpectations_column (p : Profiler) (e : ExpSpec)
    (he : e ∈ tableExpectations p) : e.column = none := by
  unfold tableExpectations at he
  by_cases h2 : 2 ≤ p.primaryOrCompoundKey.length
  · simp [h2] at he
    rcases he with h | h | h <;> simp [h]
  · simp [h2] at he
    rcases he with h | h <;> simp [h]

/-- Emission of a `(type, column)`-scoped expectation by the synthesized
suite reduces, for a profiled column of a profiler with pairwise-distinct
`column_info` keys and column-level synthesis enabled, to emission inside
that single column's block. -/
theorem emitsForColumn_eq_block (p : Profiler) (c : String)
    (pr : ColumnProfile) (t : String)
    (hNodup : (p.columnInfo.map Prod.fst).Nodup)
    (hMem : (c, pr) ∈ p.columnInfo)
    (hTab : p.tableExpectationsOnly = false) :
    emitsForColumn (synthSuite p) t c =
      (columnExpectationTypes p c pr).any
        (fun ty => !(p.excludedExpectations.contains ty) && ty == t) := by
  unfold emitsForColumn synthSuite
  rw [anyFilter]
  unfold rawSuite
  rw [List.any_append, hTab]
  have htable : (tableExpectations p).any
      (fun e => !(p.excludedExpectations.contains e.expectationType) &&
        (e.expectationType == t && e.column == some c)) = false := by
    apply List.any_eq_false.mpr
    intro e he
    have hc := tableExpectations_column p e he
    simp [hc]
  rw [htable, Bool.false_or]
  rw [if_neg Bool.false_ne_true]
  rw [anyFlatMap]
  have hblock := anyKeyUnique p.columnInfo c pr
    (fun c' pr' => (columnExpectations p c' pr').any
      (fun e => !(p.excludedExpectations.contains e.expectationType) &&
        (e.expectationType == t && e.column == some c)))
    hNodup hMem
    (by
      intro c' pr' hne
      apply List.any_eq_false.mpr
      intro e he
      have hc := columnExpectations_column p c' pr' e he
      have : (e.column == some c) = false := by
        rw [hc]
        simp [hne]
      simp [this])
  rw [hblock]
  unfold columnExpectations
  beta_reduce
  rw [anyMap]
  simp

/-- Pointwise value of the value-set emission test over the expectation
types contributed by one semantic tag. -/
theorem semanticTagAny_inSet (p : Profiler) (tag : String)
    (hExcl : p.excludedExpectations.contains "expect_column_values_to_be_in_set" = false) :
    (semanticExpectationTypesForTag tag).any
      (fun ty => !(p.excludedExpectations.contains ty) &&
        ty == "expect_column_values_to_be_in_set") =
      ((strToUpper tag) == "VALUE_SET") := by
  have hExcl' : "expect_column_values_to_be_in_set" ∉ p.excludedExpectations := by
    simpa using hExcl
  unfold semanticExpectationTypesForTag
  split_ifs with h1 h2 h3
  · simp [h1, hExcl']
  · simp [numericExpectationTypes, beq_eq_false_iff_ne.mpr h1]
  · simp [beq_eq_false_iff_ne.mpr h1]
  · simp [beq_eq_false_iff_ne.mpr h1]

/-- Inside one column's block, the value-set expectation appears exactly
under the per-path condition: the cardinality threshold when no semantic
dict was declared, the VALUE_SET tag when one was. -/
theorem block_inSet (p : Profiler) (c : String) (pr : ColumnProfile)
    (hExcl : p.excludedExpectations.contains "expect_column_values_to_be_in_set" = false) :
    (columnExpectationTypes p c pr).any
      (fun ty => !(p.excludedExpectations.contains ty) &&
        ty == "expect_column_values_to_be_in_set") =
      (if p.semanticTypesDecl.isEmpty then
         cardAtOrBelow pr.cardinality (effectiveValueSetThreshold p)
       else pr.semanticTypes.any (fun tag => (strToUpper tag) == "VALUE_SET")) := by
  unfold columnExpectationTypes
  simp only [List.any_append]
  have hnull : (nullExpectationTypes p c).any
      (fun ty => !(p.excludedExpectations.contains ty) &&
        ty == "expect_column_values_to_be_in_set") = false := by
    unfold nullExpectationTypes
    split_ifs <;> simp
  have hpk : (if p.primaryOrCompoundKey = [c] then
      ["expect_column_values_to_be_unique"] else []).any
      (fun ty => !(p.excludedExpectations.contains ty) &&
        ty == "expect_column_values_to_be_in_set") = false := by
    split_ifs <;> simp
  rw [hnull, hpk]
  by_cases hsem : p.semanticTypesDecl.isEmpty
  · simp only [hsem, if_true]
    simp only [List.any_append]
    have hnum : (if isNumericType pr.colType then numericExpectationTypes else []).any
        (fun ty => !(p.excludedExpectations.contains ty) &&
          ty == "expect_column_values_to_be_in_set") = false := by
      split_ifs <;> simp [numericExpectationTypes]
    have hprop : (if pr.cardinality = Cardinality.VERY_MANY then
        ["expect_column_proportion_of_unique_values_to_be_between"] else []).any
        (fun ty => !(p.excludedExpectations.contains ty) &&
          ty == "expect_column_values_to_be_in_set") = false := by
      split_ifs <;> simp
    rw [hnum, hprop]
    have hExcl' : "expect_column_values_to_be_in_set" ∉ p.excludedExpectations := by
      simpa using hExcl
    split_ifs with hcard <;> simp [hExcl', hcard]
  · simp only [if_neg hsem]
    rw [anyFlatMap]
    have hpt : (pr.semanticTypes.any fun tag =>
        (semanticExpectationTypesForTag tag).any
          (fun ty => !(p.excludedExpectations.contains ty) &&
            ty == "expect_column_values_to_be_in_set")) =
        (pr.semanticTypes.any fun tag => (strToUpper tag) == "VALUE_SET") := by
      apply anyCongr
      intro tag _
      exact semanticTagAny_inSet p tag hExcl
    rw [hpt]
    simp

/-- Inside one column's block, every expectation type other than the
null-handling ones comes from a component whose types all fail the target
comparison; the block emission test therefore reduces to the null-handling
component.  The hypotheses state that the target type differs from every
non-null expectation type the block can contain. -/
theorem block_reduces_to_nullPart (p : Profiler) (c : String)
    (pr : ColumnProfile) (t : String)
    (hhead : ("expect_column_values_to_be_in_type_list" == t) = false)
    (hpk : ("expect_column_values_to_be_unique" == t) = false)
    (hin : ("expect_column_values_to_be_in_set" == t) = false)
    (hnum : numericExpectationTypes.any (fun ty => ty == t) = false)
    (hprop : ("expect_column_proportion_of_unique_values_to_be_between" == t) = false)
    (hbet : ("expect_column_values_to_be_between" == t) = false) :
    (columnExpectationTypes p c pr).any
      (fun ty => !(p.excludedExpectations.contains ty) && ty == t) =
    (nullExpectationTypes p c).any
      (fun ty => !(p.excludedExpectations.contains ty) && ty == t) := by
  have hnum' := List.any_eq_false.mp hnum
  unfold columnExpectationTypes
  simp only [List.any_append]
  have h1 : (["expect_column_values_to_be_in_type_list"].any
      (fun ty => !(p.excludedExpectations.contains ty) && ty == t)) = false := by
    simp [hhead]
  have h2 : ((if p.primaryOrCompoundKey = [c] then
      ["expect_column_values_to_be_unique"] else []).any
      (fun ty => !(p.excludedExpectations.contains ty) && ty == t)) = false := by
    split_ifs <;> simp [hpk]
  have h3 : ((if p.semanticTypesDecl.isEmpty then
      (if cardAtOrBelow pr.cardinality (effectiveValueSetThreshold p) then
         ["expect_column_values_to_be_in_set"] else [])
      ++ (if isNumericType pr.colType then numericExpectationTypes else [])
      ++ (if pr.cardinality = .VERY_MANY then
            ["expect_column_proportion_of_unique_values_to_be_between"]
          else [])
    else pr.semanticTypes.flatMap semanticExpectationTypesForTag).any
      (fun ty => !(p.excludedExpectations.contains ty) && ty == t)) = false := by
    by_cases hsem : p.semanticTypesDecl.isEmpty
    · simp only [if_pos hsem, List.any_append]
      have ha : ((if cardAtOrBelow pr.cardinality (effectiveValueSetThreshold p) then
          ["expect_column_values_to_be_in_set"] else []).any
          (fun ty => !(p.excludedExpectations.contains ty) && ty == t)) = false := by
        split_ifs <;> simp [hin]
      have hb : ((if isNumericType pr.colType then numericExpectationTypes else []).any
          (fun ty => !(p.excludedExpectations.contains ty) && ty == t)) = false := by
        split_ifs with h
        · apply List.any_eq_false.mpr
          intro ty hty
          simp [hnum' ty hty]
        · rfl
      have hc : ((if pr.cardinality = Cardinality.VERY_MANY then
          ["expect_column_proportion_of_unique_values_to_be_between"] else []).any
          (fun ty => !(p.excludedExpectations.contains ty) && ty == t)) = false := by
        split_ifs <;> simp [hprop]
      rw [ha, hb, hc]
      rfl
    · simp only [if_neg hsem]
      rw [anyFlatMap]
      apply List.any_eq_false.mpr
      intro tag _
      unfold semanticExpectationTypesForTag
      split_ifs
      · simp [hin]
      · intro hcon
        obtain ⟨ty, hty, hty2⟩ := List.any_eq_true.mp hcon
        simp [hnum' ty hty] at hty2
      · simp [hbet]
      · intro h
        simp at h
  rw [h1, h2, h3]
  simp

/-- The null-handling component emits `expect_column_values_to_be_null`
exactly when the column has nulls, at least half the rows are null, and
`not_null_only` is off. -/
theorem nullPart_beNull (p : Profiler) (c : String)
    (hE2 : p.excludedExpectations.contains "expect_column_values_to_be_null" = false) :
    (nullExpectationTypes p c).any
      (fun ty => !(p.excludedExpectations.contains ty) &&
        ty == "expect_column_values_to_be_null") =
    (!p.notNullOnly && decide (p.dataset.nullCountOf c ≠ 0) &&
      decide (p.dataset.rowCount ≤ 2 * p.dataset.nullCountOf c)) := by
  have hE2' : "expect_column_values_to_be_null" ∉ p.excludedExpectations := by
    simpa using hE2
  unfold nullExpectationTypes
  split_ifs with h0 h1
  · simp [h0]
  · have ha : p.notNullOnly = false := Bool.eq_false_iff.mpr h1.1
    simp [h0, ha, h1.2, hE2']
  · rcases not_and_or.mp h1 with hno | hle
    · have ha : p.notNullOnly = true := by
        by_contra hcon
        exact hno (by simpa using hcon)
      simp [ha]
    · simp [h0, hle]

/-- The null-handling component always emits exactly one of the two null
expectations: its `not_be_null` emission is the negation of its `be_null`
emission (given neither type is excluded). -/
theorem nullPart_notBeNull (p : Profiler) (c : String)
    (hE1 : p.excludedExpectations.contains "expect_column_values_to_not_be_null" = false)
    (hE2 : p.excludedExpectations.contains "expect_column_values_to_be_null" = false) :
    (nullExpectationTypes p c).any
      (fun ty => !(p.excludedExpectations.contains ty) &&
        ty == "expect_column_values_to_not_be_null") =
    !((nullExpectationTypes p c).any
      (fun ty => !(p.excludedExpectations.contains ty) &&
        ty == "expect_column_values_to_be_null")) := by
  have hE1' : "expect_column_values_to_not_be_null" ∉ p.excludedExpectations := by
    simpa using hE1
  have hE2' : "expect_column_values_to_be_null" ∉ p.excludedExpectations := by
    simpa using hE2
  unfold nullExpectationTypes
  split_ifs <;> simp [hE1', hE2']

/-- A successful construction is exactly the assembly of the dataset with
its validated configuration. -/
theorem construct_ok_inversion (ds : Dataset) (raw : List (String × ConfigValue))
    (p : Profiler) (h : construct ds raw = .ok p) :
    ∃ cfg, validateConfig {} raw = .ok cfg ∧ p = assemble ds cfg := by
  unfold construct at h
  split at h
  next e heq => cases h
  next cfg heq1 =>
    split at h
    next e heq => cases h
    next u heq2 =>
      split at h
      next e heq => cases h
      next u2 heq3 =>
        split at h
        next e heq => cases h
        next u3 heq4 =>
          injection h with h
          exact ⟨cfg, heq1, h.symm⟩

/-- The keys of a constructed profiler's `column_info` are exactly the
dataset's non-ignored columns, in order. -/
theorem assemble_columnInfo_keys (ds : Dataset) (cfg : NormalizedConfig) :
    (assemble ds cfg).columnInfo.map Prod.fst =
      ds.columns.filter (fun c => !(cfg.ignoredColumns.contains c)) := by
  unfold assemble buildColumnInfo
  rw [List.map_map]
  have hcomp : (Prod.fst ∘ fun c => (c, columnProfileFor ds cfg c)) = id := rfl
  rw [hcomp, List.map_id]

/-- Every expectation of the pre-filter synthesis is either table-scoped or
scoped to a profiled column. -/
theorem rawSuite_columns (p : Profiler) (e : ExpSpec) (he : e ∈ rawSuite p) :
    e.column = none ∨ ∃ cp ∈ p.columnInfo, e.column = some cp.1 := by
  unfold rawSuite at he
  rcases List.mem_append.mp he with h | h
  · exact Or.inl (tableExpectations_column p e h)
  · by_cases htab : p.tableExpectationsOnly = true
    · simp [htab] at h
    · simp only [if_neg htab] at h
      rcases List.mem_flatMap.mp h with ⟨cp, hcp, hec⟩
      exact Or.inr ⟨cp, hcp, columnExpectations_column p cp.1 cp.2 e hec⟩

/-- Claim C9: profiling the 1000-row dataset whose eight columns hold 0, 1,
2, 10, 50, 100, 500 and 1000 distinct non-null values assigns them the
cardinality buckets NONE, ONE, TWO, VERY_FEW, FEW, MANY, VERY_MANY and
UNIQUE respectively in `column_info`. -/
theorem cardinality_buckets_concrete :
    cardinalitiesOf (construct cardinalityDataset []) =
      [("col_none", .NONE), ("col_one", .ONE), ("col_two", .TWO),
       ("col_very_few", .VERY_FEW), ("col_few", .FEW), ("col_many", .MANY),
       ("col_very_many", .VERY_MANY), ("col_unique", .UNIQUE)] := by
  decide

/-- Claim C4: for every profiler state, the suite returned by `build_suite`
contains no expectation whose type is in `excluded_expectations`; the
exclusion filter is applied last, over the full synthesis. -/
theorem excluded_expectations_final_filter (p : Profiler) :
    suiteExcludesAll (buildSuite p).2 p.excludedExpectations = true := by
  show suiteExcludesAll (synthSuite p) p.excludedExpectations = true
  unfold suiteExcludesAll synthSuite
  apply List.all_eq_true.mpr
  intro e he
  exact (List.mem_filter.mp he).2

/-- Claim C3: a column listed in `ignored_columns` never appears as a key
of `column_info` after construction and never appears as the `column` kwarg
of any expectation in the suite returned by `build_suite`. -/
theorem ignored_columns_never_profiled_or_targeted (ds : Dataset)
    (raw : List (String × ConfigValue)) (p : Profiler) (c : String)
    (hok : construct ds raw = .ok p)
    (hign : p.ignoredColumns.contains c = true) :
    (p.columnInfo.map Prod.fst).contains c = false ∧
    suiteAvoidsColumn (buildSuite p).2 c = true := by
  obtain ⟨cfg, _, rfl⟩ := construct_ok_inversion ds raw p hok
  have hkeys := assemble_columnInfo_keys ds cfg
  have hignored : cfg.ignoredColumns.contains c = true := hign
  have hnotkey : ((assemble ds cfg).columnInfo.map Prod.fst).contains c = false := by
    rw [hkeys]
    by_contra hcon
    have hc : c ∈ ds.columns.filter (fun x => !(cfg.ignoredColumns.contains x)) := by
      have := Bool.not_eq_false _ |>.mp hcon
      simpa using this
    have hpass := (List.mem_filter.mp hc).2
    simp only [Bool.not_eq_true'] at hpass
    rw [hignored] at hpass
    cases hpass
  refine ⟨hnotkey, ?_⟩
  show suiteAvoidsColumn (synthSuite (assemble ds cfg)) c = true
  unfold suiteAvoidsColumn synthSuite
  apply List.all_eq_true.mpr
  intro e he
  have heraw := (List.mem_filter.mp he).1
  rcases rawSuite_columns (assemble ds cfg) e heraw with hcol | ⟨cp, hcp, hcol⟩
  · simp [hcol]
  · have hkey : cp.1 ∈ (assemble ds cfg).columnInfo.map Prod.fst :=
      List.mem_map.mpr ⟨cp, hcp, rfl⟩
    have hne : cp.1 ≠ c := by
      intro hceq
      rw [hceq] at hkey
      have : ((assemble ds cfg).columnInfo.map Prod.fst).contains c = true := by
        simpa using hkey
      rw [hnotkey] at this
      cases this
    simp [hcol, hne]

/-- Claim C3, witness: in the full-config scenario the ignored column
`col_one` is absent from `column_info` and from every expectation's column
kwarg. -/
theorem ignored_columns_never_profiled_or_targeted_witness :
    construct cardinalityDataset fullSemanticRawConfig = .ok semanticProfiler ∧
    semanticProfiler.ignoredColumns.contains "col_one" = true ∧
    ((semanticProfiler.columnInfo.map Prod.fst).contains "col_one" = false ∧
      suiteAvoidsColumn (buildSuite semanticProfiler).2 "col_one" = true) :=
  ⟨rfl, by decide,
   ignored_columns_never_profiled_or_targeted cardinalityDataset
     fullSemanticRawConfig semanticProfiler "col_one" rfl (by decide)⟩

/-- Claim C5: two consecutive `build_suite` calls with no configuration
change yield identical expectation collections (in particular the same
length and the same list of `(expectation_type, column)` pairs). -/
theorem buildSuite_idempotent (p : Profiler) :
    (buildSuite (buildSuite p).1).2 = (buildSuite p).2 ∧
    ((buildSuite (buildSuite p).1).2).map (fun e => (e.expectationType, e.column)) =
      ((buildSuite p).2).map (fun e => (e.expectationType, e.column)) :=
  ⟨rfl, rfl⟩

theorem filterFilter {α : Type} (l : List α) (p q : α → Bool) :
    (l.filter p).filter q = l.filter (fun a => p a && q a) := by
  induction l with
  | nil => rfl
  | cons x xs ih =>
    by_cases h : p x <;> by_cases h2 : q x <;>
      simp [List.filter_cons, h, h2, ih]

/-- For any base synthesis list, two exclusion lists that agree on a type
produce the same expectations of that type after filtering. -/
theorem filterExclAgree (l : List ExpSpec) (e1 e2 : List String) (t : String)
    (h : e1.contains t = e2.contains t) :
    (l.filter (fun e => !(e1.contains e.expectationType) &&
      e.expectationType == t)) =
    (l.filter (fun e => !(e2.contains e.expectationType) &&
      e.expectationType == t)) := by
  induction l with
  | nil => rfl
  | cons x xs ih =>
    by_cases hx : x.expectationType = t
    · have hcc : e1.contains x.expectationType = e2.contains x.expectationType := by
        rw [hx, h]
      rw [List.filter_cons, List.filter_cons, ih, hcc]
    · have hbx : (x.expectationType == t) = false := beq_eq_false_iff_ne.mpr hx
      rw [List.filter_cons, List.filter_cons, ih, hbx]
      simp

/-- Claim C6: mutating `excluded_expectations` between two `build_suite`
calls and rebuilding changes only the presence of expectations of the types
whose exclusion status changed: for every type whose status is unchanged,
the expectations of that type are identical in the two suites (and the
second suite is synthesized wholesale, with no residue of the first). -/
theorem excluded_mutation_frame (p : Profiler) (newExcl : List String) (t : String)
    (h : p.excludedExpectations.contains t = newExcl.contains t) :
    ((buildSuite { (buildSuite p).1 with excludedExpectations := newExcl }).2).filter
      (fun e => e.expectationType == t) =
    ((buildSuite p).2).filter (fun e => e.expectationType == t) := by
  show ((synthSuite { (buildSuite p).1 with excludedExpectations := newExcl }).filter
      (fun e => e.expectationType == t)) =
    ((synthSuite p).filter (fun e => e.expectationType == t))
  unfold synthSuite
  have hraw : rawSuite { (buildSuite p).1 with excludedExpectations := newExcl } =
      rawSuite p := rfl
  rw [hraw, filterFilter, filterFilter]
  exact filterExclAgree (rawSuite p) newExcl p.excludedExpectations t h.symm

/-- Claim C6, witness: in the table-expectations-only scenario, replacing
the excluded row-count expectation by the excluded column-list expectation
leaves the (untouched) value-set expectation type identical across the two
builds. -/
theorem excluded_mutation_frame_witness :
    tableOnlyProfiler.excludedExpectations.contains
        "expect_column_values_to_be_in_set" =
      (["expect_table_columns_to_match_ordered_list"] : List String).contains
        "expect_column_values_to_be_in_set" ∧
    ((buildSuite { (buildSuite tableOnlyProfiler).1 with
        excludedExpectations := ["expect_table_columns_to_match_ordered_list"] }).2).filter
      (fun e => e.expectationType == "expect_column_values_to_be_in_set") =
    ((buildSuite tableOnlyProfiler).2).filter
      (fun e => e.expectationType == "expect_column_values_to_be_in_set") :=
  ⟨by decide,
   excluded_mutation_frame tableOnlyProfiler
     ["expect_table_columns_to_match_ordered_list"]
     "expect_column_values_to_be_in_set" (by decide)⟩

/-- Claim C1, counterexample: in the full-config scenario
(`value_set_threshold="unique"`, semantic-types dict declared), the
non-ignored profiled column `col_few` has its cardinality bucket at or
below the configured threshold (and the value-set expectation type is not
excluded, column-level synthesis enabled), yet `build_suite` emits no
`expect_column_values_to_be_in_set` for it — refuting the claimed iff.
The repository test `test_build_suite_with_semantic_types_dict` pins this
behaviour (exactly two value-set expectations, for `col_two` and
`col_very_few`). -/
theorem valueSet_threshold_claim_counterexample :
    construct cardinalityDataset fullSemanticRawConfig = .ok semanticProfiler ∧
    semanticProfiler.ignoredColumns.contains "col_few" = false ∧
    semanticProfiler.tableExpectationsOnly = false ∧
    semanticProfiler.excludedExpectations.contains
      "expect_column_values_to_be_in_set" = false ∧
    cardAtOrBelow (profileOf semanticProfiler "col_few").cardinality
      (effectiveValueSetThreshold semanticProfiler) = true ∧
    emitsForColumn (buildSuite semanticProfiler).2
      "expect_column_values_to_be_in_set" "col_few" = false :=
  ⟨rfl, by decide, by decide, by decide, by decide, by decide⟩

/-- Claim C1 (amended): for a profiled non-ignored column (column-level
synthesis enabled, the value-set type not excluded), `build_suite` emits
`expect_column_values_to_be_in_set` for the column if and only if: no
semantic-types dict was declared and the column's cardinality bucket is at
or below the configured (or default) `value_set_threshold`, or a
semantic-types dict was declared and the column carries the VALUE_SET
semantic tag.  (With `value_set_threshold="unique"` every profiled column
satisfies the threshold disjunct, since UNIQUE is the greatest bucket.) -/
theorem valueSet_emission_characterization (p : Profiler) (c : String)
    (pr : ColumnProfile)
    (hNodup : (p.columnInfo.map Prod.fst).Nodup)
    (hMem : (c, pr) ∈ p.columnInfo)
    (hTab : p.tableExpectationsOnly = false)
    (hExcl : p.excludedExpectations.contains
      "expect_column_values_to_be_in_set" = false) :
    emitsForColumn (buildSuite p).2 "expect_column_values_to_be_in_set" c =
      (if p.semanticTypesDecl.isEmpty then
         cardAtOrBelow pr.cardinality (effectiveValueSetThreshold p)
       else pr.semanticTypes.any (fun tag => (strToUpper tag) == "VALUE_SET")) := by
  have hb := emitsForColumn_eq_block p c pr
    "expect_column_values_to_be_in_set" hNodup hMem hTab
  exact hb.trans (block_inSet p c pr hExcl)

/-- Claim C1, witness: the tagged column `col_two` of the full-config
scenario receives the value-set expectation via its semantic tag. -/
theorem valueSet_emission_characterization_witness :
    ((semanticProfiler.columnInfo.map Prod.fst).Nodup ∧
      ("col_two", (⟨.TWO, "INT", ["value_set"]⟩ : ColumnProfile)) ∈
        semanticProfiler.columnInfo) ∧
    emitsForColumn (buildSuite semanticProfiler).2
        "expect_column_values_to_be_in_set" "col_two" =
      (if semanticProfiler.semanticTypesDecl.isEmpty then
         cardAtOrBelow (⟨.TWO, "INT", ["value_set"]⟩ : ColumnProfile).cardinality
           (effectiveValueSetThreshold semanticProfiler)
       else (⟨.TWO, "INT", ["value_set"]⟩ : ColumnProfile).semanticTypes.any
         (fun tag => (strToUpper tag) == "VALUE_SET")) :=
  ⟨⟨by decide, by decide⟩,
   valueSet_emission_characterization semanticProfiler "col_two"
     ⟨.TWO, "INT", ["value_set"]⟩ (by decide) (by decide) (by decide) (by decide)⟩

/-- Claim C2, counterexample: on the two-column dataset of the repository
test `test_config_with_not_null_only`, profiled with no configuration
(`not_null_only` false, nothing excluded, nothing ignored), `build_suite`
emits `expect_column_values_to_not_be_null` for `mostly_not_null` although
its null count is 334, not zero, and emits `expect_column_values_to_be_null`
for `mostly_null` although that column is not entirely null (cardinality is
not NONE) — refuting both claimed "exactly when" conditions. -/
theorem null_claim_counterexample :
    construct twoColumnDataset [] = .ok twoColumnProfiler ∧
    twoColumnProfiler.notNullOnly = false ∧
    twoColumnProfiler.tableExpectationsOnly = false ∧
    twoColumnProfiler.excludedExpectations = [] ∧
    twoColumnProfiler.ignoredColumns = [] ∧
    twoColumnDataset.nullCountOf "mostly_not_null" = 334 ∧
    emitsForColumn (buildSuite twoColumnProfiler).2
      "expect_column_values_to_not_be_null" "mostly_not_null" = true ∧
    ((profileOf twoColumnProfiler "mostly_null").cardinality ==
      Cardinality.NONE) = false ∧
    emitsForColumn (buildSuite twoColumnProfiler).2
      "expect_column_values_to_be_null" "mostly_null" = true :=
  ⟨rfl, by decide, by decide, by decide, by decide, by decide, by decide,
   by decide, by decide⟩

/-- Claim C2 (amended): every profiled non-ignored column receives exactly
one null-handling expectation (when neither null expectation type is
excluded and column-level synthesis is enabled):
`expect_column_values_to_be_null` exactly when the column has a nonzero
null count, at least half of the rows are null, and `not_null_only` is
false; `expect_column_values_to_not_be_null` in every other case — in
particular the two are never emitted together, and with `not_null_only`
true only `expect_column_values_to_not_be_null` is ever emitted. -/
theorem null_expectation_characterization (p : Profiler) (c : String)
    (pr : ColumnProfile)
    (hNodup : (p.columnInfo.map Prod.fst).Nodup)
    (hMem : (c, pr) ∈ p.columnInfo)
    (hTab : p.tableExpectationsOnly = false)
    (hE1 : p.excludedExpectations.contains
      "expect_column_values_to_not_be_null" = false)
    (hE2 : p.excludedExpectations.contains
      "expect_column_values_to_be_null" = false) :
    emitsForColumn (buildSuite p).2 "expect_column_values_to_be_null" c =
      (!p.notNullOnly && decide (p.dataset.nullCountOf c ≠ 0) &&
        decide (p.dataset.rowCount ≤ 2 * p.dataset.nullCountOf c)) ∧
    emitsForColumn (buildSuite p).2 "expect_column_values_to_not_be_null" c =
      !(emitsForColumn (buildSuite p).2 "expect_column_values_to_be_null" c) := by
  have hb := emitsForColumn_eq_block p c pr
    "expect_column_values_to_be_null" hNodup hMem hTab
  have hn := emitsForColumn_eq_block p c pr
    "expect_column_values_to_not_be_null" hNodup hMem hTab
  have hred1 := block_reduces_to_nullPart p c pr
    "expect_column_values_to_be_null"
    (by decide) (by decide) (by decide) (by decide) (by decide) (by decide)
  have hred2 := block_reduces_to_nullPart p c pr
    "expect_column_values_to_not_be_null"
    (by decide) (by decide) (by decide) (by decide) (by decide) (by decide)
  constructor
  · show emitsForColumn (synthSuite p) "expect_column_values_to_be_null" c = _
    exact hb.trans (hred1.trans (nullPart_beNull p c hE2))
  · show emitsForColumn (synthSuite p) "expect_column_values_to_not_be_null" c =
      !(emitsForColumn (synthSuite p) "expect_column_values_to_be_null" c)
    rw [hn, hred2, hb, hred1]
    exact nullPart_notBeNull p c hE1 hE2

/-- Claim C2, witness: the column `mostly_null` (666 nulls of 1000 rows)
of the two-column scenario. -/
theorem null_expectation_characterization_witness :
    ((twoColumnProfiler.columnInfo.map Prod.fst).Nodup ∧
      ("mostly_null", (⟨.UNIQUE, "NUMERIC", []⟩ : ColumnProfile)) ∈
        twoColumnProfiler.columnInfo) ∧
    (emitsForColumn (buildSuite twoColumnProfiler).2
        "expect_column_values_to_be_null" "mostly_null" =
      (!twoColumnProfiler.notNullOnly &&
        decide (twoColumnProfiler.dataset.nullCountOf "mostly_null" ≠ 0) &&
        decide (twoColumnProfiler.dataset.rowCount ≤
          2 * twoColumnProfiler.dataset.nullCountOf "mostly_null")) ∧
     emitsForColumn (buildSuite twoColumnProfiler).2
        "expect_column_values_to_not_be_null" "mostly_null" =
      !(emitsForColumn (buildSuite twoColumnProfiler).2
        "expect_column_values_to_be_null" "mostly_null")) :=
  ⟨⟨by decide, by decide⟩,
   null_expectation_characterization twoColumnProfiler "mostly_null"
     ⟨.UNIQUE, "NUMERIC", []⟩ (by decide) (by decide) (by decide)
     (by decide) (by decide)⟩

/-- Configuration validation fails with the error of the first invalid
entry: when every other entry passes entry-level validation, the fold
returns that entry's error. -/
theorem validateConfig_first_error (raw : List (String × ConfigValue))
    (cfg : NormalizedConfig) (k : String) (v : ConfigValue)
    (err : ProfilerError)
    (hmem : (k, v) ∈ raw)
    (herr : checkEntry k v = .error err)
    (hothers : ∀ e ∈ raw, e = (k, v) ∨ entryOk e = true) :
    validateConfig cfg raw = .error err := by
  induction raw generalizing cfg with
  | nil => cases hmem
  | cons x xs ih =>
    obtain ⟨xk, xv⟩ := x
    rcases List.mem_cons.mp hmem with hx | hx
    · injection hx with hxk hxv
      subst hxk
      subst hxv
      unfold validateConfig
      rw [herr]
    · rcases hothers (xk, xv) (List.mem_cons_self (xk, xv) xs) with hxe | hok
      · injection hxe with hxk hxv
        subst hxk
        subst hxv
        unfold validateConfig
        rw [herr]
      · cases hce : checkEntry xk xv with
        | error e2 =>
          unfold entryOk at hok
          rw [hce] at hok
          cases hok
        | ok f =>
          unfold validateConfig
          rw [hce]
          exact ih (f cfg) hx (fun e he => hothers e (List.mem_cons_of_mem (xk, xv) he))

/-- Claim C7: constructing a profiler from a configuration containing an
unrecognized key (all other entries being entry-level valid) fails, before
any profiling, with a configuration error whose message names exactly the
offending key. -/
theorem unrecognized_config_key_fails (ds : Dataset)
    (raw : List (String × ConfigValue)) (k : String) (v : ConfigValue)
    (hk : recognizedConfigKeys.contains k = false)
    (hmem : (k, v) ∈ raw)
    (hothers : ∀ e ∈ raw, e = (k, v) ∨ entryOk e = true) :
    construct ds raw =
      .error (.configurationError (unrecognizedKeyMessage k)) := by
  have hnotin : k ∉ recognizedConfigKeys := by simpa using hk
  simp only [recognizedConfigKeys, List.mem_cons, List.not_mem_nil, or_false,
    not_or] at hnotin
  obtain ⟨h1, h2, h3, h4, h5, h6, h7⟩ := hnotin
  have herr : checkEntry k v =
      .error (.configurationError (unrecognizedKeyMessage k)) := by
    unfold checkEntry
    rw [if_neg h1, if_neg h2, if_neg h3, if_neg h4, if_neg h5, if_neg h6,
      if_neg h7]
  have hval := validateConfig_first_error raw {} k v _ hmem herr hothers
  unfold construct
  rw [hval]

/-- Claim C7, witness: the config `{"bad_keyword": 100}` of the repository
test `test__validate_config`. -/
theorem unrecognized_config_key_fails_witness :
    recognizedConfigKeys.contains "bad_keyword" = false ∧
    construct cardinalityDataset badKeywordRawConfig =
      .error (.configurationError
        "Parameter bad_keyword from config is not recognized.") :=
  ⟨by decide,
   unrecognized_config_key_fails cardinalityDataset badKeywordRawConfig
     "bad_keyword" (.int 100) (by decide) (by decide) (by decide)⟩

/-- The primary/compound-key check fails with a reference error naming the
first key column missing from the dataset. -/
theorem checkPrimaryKey_find_error (ds : Dataset) (keys : List String)
    (m : String)
    (h : keys.find? (fun c => !(ds.columns.contains c)) = some m) :
    checkPrimaryKey ds keys = .error (.referenceError (pkNotFoundMessage m)) := by
  induction keys with
  | nil => cases h
  | cons c rest ih =>
    by_cases hc : ds.columns.contains c = true
    · have hcm : c ∈ ds.columns := by simpa using hc
      have h' : rest.find? (fun c => !(ds.columns.contains c)) = some m := by
        rw [List.find?_cons] at h
        simpa [hcm] using h
      unfold checkPrimaryKey
      rw [if_pos hc]
      exact ih h'
    · have hcf : ds.columns.contains c = false := Bool.eq_false_iff.mpr hc
      have hcnm : c ∉ ds.columns := by simpa using hcf
      have hcm : c = m := by
        rw [List.find?_cons] at h
        simpa [hcnm] using h
      unfold checkPrimaryKey
      rw [if_neg hc, hcm]

/-- The primary/compound-key check succeeds when every key column exists in
the dataset's column set. -/
theorem checkPrimaryKey_all_ok (ds : Dataset) (keys : List String)
    (h : ∀ c ∈ keys, ds.columns.contains c = true) :
    checkPrimaryKey ds keys = .ok () := by
  induction keys with
  | nil => rfl
  | cons c rest ih =>
    unfold checkPrimaryKey
    rw [if_pos (h c (List.mem_cons_self c rest))]
    exact ih (fun x hx => h x (List.mem_cons_of_mem c hx))

/-- Claim C8: with a validated configuration, construction fails with a
reference error naming the first primary/compound-key column absent from
the dataset's column set; and when every key column exists (even if some
are ignored), construction succeeds and the profiler retains the full key. -/
theorem primary_key_validation (ds : Dataset)
    (raw : List (String × ConfigValue)) (cfg : NormalizedConfig)
    (hcfg : validateConfig {} raw = .ok cfg)
    (hsem : checkSemanticCategories cfg.semanticTypes = .ok ()) :
    (∀ m, cfg.primaryOrCompoundKey.find?
        (fun c => !(ds.columns.contains c)) = some m →
      construct ds raw = .error (.referenceError (pkNotFoundMessage m))) ∧
    ((∀ c ∈ cfg.primaryOrCompoundKey, ds.columns.contains c = true) →
      checkSemanticColumns ds cfg cfg.semanticTypes = .ok () →
      construct ds raw = .ok (assemble ds cfg) ∧
        pkOfResult (construct ds raw) = cfg.primaryOrCompoundKey) := by
  constructor
  · intro m hfind
    have hpk := checkPrimaryKey_find_error ds cfg.primaryOrCompoundKey m hfind
    simp only [construct, hcfg, hsem, hpk]
  · intro hall hcols
    have hpk := checkPrimaryKey_all_ok ds cfg.primaryOrCompoundKey hall
    have hco : construct ds raw = .ok (assemble ds cfg) := by
      simp only [construct, hcfg, hsem, hpk, hcols]
    refine ⟨hco, ?_⟩
    rw [hco]
    rfl

/-- Claim C8, witness: the `bad_key_config` and `ignored_column_config` of
the repository test `test_primary_or_compound_key_not_found_in_columns`. -/
theorem primary_key_validation_witness :
    construct cardinalityDataset badKeyRawConfig =
      .error (.referenceError (pkNotFoundMessage "col_that_does_not_exist")) ∧
    pkOfResult (construct cardinalityDataset ignoredKeyRawConfig) =
      ["col_unique", "col_one"] :=
  ⟨(primary_key_validation cardinalityDataset badKeyRawConfig
      { primaryOrCompoundKey := ["col_unique", "col_that_does_not_exist"] }
      rfl rfl).1 "col_that_does_not_exist" rfl,
   ((primary_key_validation cardinalityDataset ignoredKeyRawConfig
      { primaryOrCompoundKey := ["col_unique", "col_one"],
        ignoredColumns := ["col_none", "col_one"] }
      rfl rfl).2 (by decide) rfl).2⟩

/-- Claim C10: the semantic-type tags stored in a profiled column's record
are exactly the user-supplied category strings, as written in the
`semantic_types` config (not the uppercase enumeration names): every
declared category containing the column is stored verbatim, and every
stored tag is a declared category string containing the column. -/
theorem semantic_tags_stored_as_written (ds : Dataset)
    (raw : List (String × ConfigValue)) (p : Profiler) (c : String)
    (pr : ColumnProfile)
    (hok : construct ds raw = .ok p)
    (hMem : (c, pr) ∈ p.columnInfo) :
    (∀ cat cols, (cat, cols) ∈ p.semanticTypesDecl → cols.contains c = true →
      cat ∈ pr.semanticTypes) ∧
    (∀ tag ∈ pr.semanticTypes, ∃ cols,
      (tag, cols) ∈ p.semanticTypesDecl ∧ cols.contains c = true) := by
  obtain ⟨cfg, _, rfl⟩ := construct_ok_inversion ds raw p hok
  have hmem' : (c, pr) ∈ buildColumnInfo ds cfg := hMem
  unfold buildColumnInfo at hmem'
  rcases List.mem_map.mp hmem' with ⟨c0, _, heq⟩
  have hc0 : c0 = c := congrArg Prod.fst heq
  have hpr : columnProfileFor ds cfg c0 = pr := congrArg Prod.snd heq
  have hst : pr.semanticTypes = semanticTagsFor cfg.semanticTypes c := by
    rw [← hpr, hc0]
    rfl
  constructor
  · intro cat cols hdecl hcc
    rw [hst]
    unfold semanticTagsFor
    exact List.mem_map.mpr
      ⟨(cat, cols), List.mem_filter.mpr ⟨hdecl, hcc⟩, rfl⟩
  · intro tag htag
    rw [hst] at htag
    unfold semanticTagsFor at htag
    rcases List.mem_map.mp htag with ⟨q, hq, rfl⟩
    have hqf := List.mem_filter.mp hq
    refine ⟨q.2, ?_, hqf.2⟩
    have : (q.1, q.2) = q := rfl
    rw [this]
    exact hqf.1

/-- Claim C10, witness: `col_two` of the full-config scenario stores the
tag `"value_set"` exactly as written, and not the uppercase enumeration
name `"VALUE_SET"`. -/
theorem semantic_tags_stored_as_written_witness :
    "value_set" ∈ (profileOf semanticProfiler "col_two").semanticTypes ∧
    (profileOf semanticProfiler "col_two").semanticTypes.contains
      "VALUE_SET" = false :=
  ⟨(semantic_tags_stored_as_written cardinalityDataset fullSemanticRawConfig
      semanticProfiler "col_two" (profileOf semanticProfiler "col_two")
      rfl (by decide)).1
    "value_set" ["col_one", "col_two", "col_very_few"] (by decide) (by decide),
   by decide⟩

end UserConfigurableProfiler
